import Mathlib

/-!
Verification of the tnft-stratum core: the health circuit breaker and JSON-RPC
outcome classification from `rpc/rpc.go`, and the template refresh / blob
mutation logic from `stratum/blocks.go`, shallowly embedded as pure functions.

Go `int64` / `int` counters are modelled as `Int` (they only ever step by one
from zero and are reset, so overflow is unreachable); byte buffers are
`List Nat`; Go runtime panics (nil-pointer dereference, failed type
assertion) are modelled as an explicit `panic` outcome constructor.
-/

namespace TnftStratum

/-! ### Health monitor: the sick/alive fields of `RPCClient` (rpc.go)

The embedding keeps exactly the fields that `markSick` / `markAlive` / `Sick`
read or write: `sickRate` (consecutive-failure streak), `successRate`
(consecutive-success streak), `FailsCount` (transition counter) and the
boolean `sick`.  The Go zero value of the struct is the initial state. -/

structure RPCClient where
  sickRate : Int
  successRate : Int
  failsCount : Int
  sick : Bool
deriving DecidableEq, Repr

/-- Go zero-valued `RPCClient` health fields: all counters 0, not sick. -/
def initialClient : RPCClient :=
  { sickRate := 0, successRate := 0, failsCount := 0, sick := false }

/-- rpc.go `markSick`: `if !r.sick { FailsCount++ }; sickRate++;
successRate = 0; if sickRate >= 5 { sick = true }`. -/
def markSick (r : RPCClient) : RPCClient :=
  let r1 := if r.sick = false then { r with failsCount := r.failsCount + 1 } else r
  let r2 := { r1 with sickRate := r1.sickRate + 1, successRate := 0 }
  if r2.sickRate ≥ 5 then { r2 with sick := true } else r2

/-- rpc.go `markAlive`: `successRate++;
if successRate >= 5 { sick = false; sickRate = 0; successRate = 0 }`. -/
def markAlive (r : RPCClient) : RPCClient :=
  let r1 := { r with successRate := r.successRate + 1 }
  if r1.successRate ≥ 5 then
    { r1 with sick := false, sickRate := 0, successRate := 0 }
  else r1

/-- rpc.go `Sick`: read the `sick` flag. -/
def Sick (r : RPCClient) : Bool := r.sick

/-- A sequence of health reports fed to the monitor: each RPC outcome is
either a failure report (`markSick`) or a success report (`markAlive`). -/
inductive HEvent where
  | fail
  | succ
deriving DecidableEq, Repr

/-- Apply one health report. -/
def healthStep (r : RPCClient) : HEvent → RPCClient
  | .fail => markSick r
  | .succ => markAlive r

/-- Run a sequence of health reports from a given state. -/
def runHealth : RPCClient → List HEvent → RPCClient
  | r, [] => r
  | r, e :: es => runHealth (healthStep r e) es

/-- Number of failure reports in the sequence that are made while the
monitor is not sick at the moment of the report (specification-side count). -/
def notSickFails : RPCClient → List HEvent → Int
  | _, [] => 0
  | r, .fail :: es => (if r.sick then 0 else 1) + notSickFails (markSick r) es
  | r, .succ :: es => notSickFails (markAlive r) es

/-! ### Health monitor lemmas -/

set_option linter.unnecessarySeqFocus false in
theorem markSick_failsCount (s : RPCClient) :
    (markSick s).failsCount = s.failsCount + if s.sick then 0 else 1 := by
  cases hs : s.sick <;> simp [markSick, hs] <;> (try split) <;> simp

theorem markAlive_failsCount (s : RPCClient) :
    (markAlive s).failsCount = s.failsCount := by
  simp only [markAlive]
  split <;> simp

theorem runHealth_failsCount : ∀ (evs : List HEvent) (s : RPCClient),
    (runHealth s evs).failsCount = s.failsCount + notSickFails s evs := by
  intro evs
  induction evs with
  | nil => intro s; simp [runHealth, notSickFails]
  | cons e es ih =>
    intro s
    cases e with
    | fail =>
      simp only [runHealth, healthStep, notSickFails, ih, markSick_failsCount]
      ring
    | succ =>
      simp only [runHealth, healthStep, notSickFails, ih, markAlive_failsCount]

/-- C8: `FailsCount` is incremented by a `markSick` call iff `sick` was false
at the moment of the call, `markAlive` never changes it, and hence after any
sequence of health reports it equals its starting value plus the number of
failure reports made while not sick. -/
theorem C8_failsCount_counts_transitions : ∀ (s : RPCClient) (evs : List HEvent),
    (markSick s).failsCount = s.failsCount + (if s.sick then 0 else 1)
    ∧ (markAlive s).failsCount = s.failsCount
    ∧ (runHealth s evs).failsCount = s.failsCount + notSickFails s evs := by
  intro s evs
  exact ⟨markSick_failsCount s, markAlive_failsCount s, runHealth_failsCount evs s⟩

/-- C4: the hysteresis is asymmetric — every `markSick` call zeroes
`successRate` (the success streak), while `markAlive` leaves `sickRate`
(the failure streak) unchanged unless the incremented success streak has
reached 5, in which case (and only then) it resets `sickRate` to 0. -/
theorem C4_asymmetric_hysteresis : ∀ s : RPCClient,
    (markSick s).successRate = 0
    ∧ (markAlive s).sickRate = (if s.successRate + 1 ≥ 5 then 0 else s.sickRate) := by
  intro s
  constructor
  · simp only [markSick]
    split <;> split <;> simp
  · simp only [markAlive]
    split <;> simp_all

/-- The sick state reached from the initial state by 5 consecutive failure
reports: `sickRate = 5`, `successRate = 0`, `sick = true`. -/
def sickAfterFiveFails : RPCClient :=
  markSick (markSick (markSick (markSick (markSick initialClient))))

/-- C3 counterexample: the claim quantifies over every sick state, but from
the reachable sick state obtained by 5 failures followed by 1 success
(still sick, success streak already 1), four further `markAlive` calls
already clear the sick flag, so 4 successes do not always leave `Sick`
true. -/
theorem C3_counterexample :
    Sick (markAlive sickAfterFiveFails) = true
    ∧ Sick (markAlive (markAlive (markAlive (markAlive
        (markAlive sickAfterFiveFails))))) = false := by
  decide

/-- C3 (amended): starting from the initial health state, 5 consecutive
`markSick` calls make `Sick` true; from any sick state whose success streak
is zero (in particular the state just entered through failures), 4
`markAlive` calls leave `Sick` true, and a 5th consecutive success clears
the sick flag and resets both streak counters to 0. -/
theorem C3_hysteresis_cycle (s : RPCClient) (h1 : s.sick = true)
    (h2 : s.successRate = 0) :
    Sick sickAfterFiveFails = true
    ∧ Sick (markAlive (markAlive (markAlive (markAlive s)))) = true
    ∧ (markAlive (markAlive (markAlive (markAlive (markAlive s))))).sick = false
    ∧ (markAlive (markAlive (markAlive (markAlive (markAlive s))))).sickRate = 0
    ∧ (markAlive (markAlive (markAlive (markAlive (markAlive s))))).successRate = 0 := by
  refine ⟨by decide, ?_, ?_, ?_, ?_⟩ <;> simp [markAlive, Sick, h1, h2]

/-- C3 witness: the amended cycle instantiated at the concrete sick state
reached by 5 failures. -/
theorem C3_hysteresis_cycle_witness :
    Sick sickAfterFiveFails = true
    ∧ Sick (markAlive (markAlive (markAlive (markAlive sickAfterFiveFails)))) = true
    ∧ (markAlive (markAlive (markAlive (markAlive (markAlive sickAfterFiveFails))))).sick = false
    ∧ (markAlive (markAlive (markAlive (markAlive (markAlive sickAfterFiveFails))))).sickRate = 0
    ∧ (markAlive (markAlive (markAlive (markAlive (markAlive sickAfterFiveFails))))).successRate = 0 :=
  C3_hysteresis_cycle sickAfterFiveFails (by decide) (by decide)

/-! ### RPC transport: `doPost` and `GetBlockTemplate` (rpc.go)

The HTTP exchange itself is external input; what the code does with it is
modelled exactly.  A `DaemonResponse` is everything `doPost` can observe:
the `client.Do` call failed, the body failed to decode as a JSON-RPC
envelope, the body decoded to JSON `null` (leaving the `*JSONRpcResp`
pointer nil), or a decoded envelope.  The `error` field of the envelope is
a Go `map[string]interface{}`: absent key lookup yields the nil interface
value, and the bare type assertion `.(string)` panics on anything that is
not a string.  Panics (process termination) are an explicit outcome. -/

/-- A Go `interface{}` value as it can appear inside the decoded `error`
map of a JSON-RPC envelope. `nilVal` is the nil interface (also the result
of looking up a missing key). -/
inductive GoVal where
  | str (s : String)
  | num (n : Int)
  | boolean (b : Bool)
  | nilVal
deriving DecidableEq, Repr

/-- Go map lookup `m["message"]`: the stored value, or the nil interface
when the key is absent. -/
def lookupGo (k : String) (m : List (String × GoVal)) : GoVal :=
  match m.find? (fun p => p.1 = k) with
  | some p => p.2
  | none => .nilVal

/-- Go type assertion `v.(string)`: succeeds only on a string; any other
value (including the nil interface) panics. -/
def assertString : GoVal → Option String
  | .str s => some s
  | _ => none

/-- rpc.go `GetBlockTemplateReply` (Go int64 as `Int`; `ReservedOffset`
is a byte offset, modelled as `Nat`). -/
structure GetBlockTemplateReply where
  difficulty : Int
  height : Int
  blob : String
  reservedOffset : Nat
  prevHash : String
  seedHash : String
  nextSeedHash : String
deriving DecidableEq, Repr

/-- The `result` payload of a successful envelope, as seen by the second
`json.Unmarshal` in `GetBlockTemplate`: either it unmarshals into a
`GetBlockTemplateReply`, or unmarshalling fails with an error message. -/
inductive ResultPayload where
  | decodable (r : GetBlockTemplateReply)
  | junk (msg : String)
deriving DecidableEq, Repr

/-- rpc.go `JSONRpcResp`, restricted to the fields `doPost` and its callers
read: `Result` (nil or a raw payload) and `Error` (nil map or a decoded
object). -/
structure JSONRpcResp where
  result : Option ResultPayload
  errObj : Option (List (String × GoVal))
deriving DecidableEq, Repr

/-- Everything `doPost` can observe of the HTTP exchange. -/
inductive DaemonResponse where
  | noResponse (msg : String)
  | undecodable (msg : String)
  | nullBody
  | envelope (e : JSONRpcResp)
deriving DecidableEq, Repr

/-- Outcome of `doPost`: a runtime panic, an error value, or the envelope's
result payload. -/
inductive DPResult where
  | panic
  | err (msg : String)
  | ok (result : Option ResultPayload)
deriving DecidableEq, Repr

/-- rpc.go `doPost` after the HTTP exchange: transport failure → `markSick`
and return the error; body not decodable → `markSick` and return the error;
body `null` → the nil `rpcResp` pointer is dereferenced at `rpcResp.Error`
(panic); envelope with non-nil error map → `markSick`, then
`rpcResp.Error["message"].(string)` either yields the surfaced error text
or panics; otherwise return the envelope's result. -/
def doPost (h : RPCClient) (resp : DaemonResponse) : RPCClient × DPResult :=
  match resp with
  | .noResponse msg => (markSick h, .err msg)
  | .undecodable msg => (markSick h, .err msg)
  | .nullBody => (h, .panic)
  | .envelope e =>
    match e.errObj with
    | some eo =>
      match assertString (lookupGo "message" eo) with
      | some s => (markSick h, .err s)
      | none => (markSick h, .panic)
    | none => (h, .ok e.result)

/-- Outcome of `GetBlockTemplate`: a panic propagated from `doPost`, an
error, or a possibly-nil typed reply. -/
inductive GBTResult where
  | panic
  | err (msg : String)
  | ok (reply : Option GetBlockTemplateReply)
deriving DecidableEq, Repr

/-- rpc.go `GetBlockTemplate`: call `doPost`; on error return `(nil, err)`;
if `rpcResp.Result` is non-nil unmarshal it into the reply (an unmarshal
failure is returned as the error); a nil `Result` leaves both the reply and
the error nil. -/
def GetBlockTemplate (h : RPCClient) (resp : DaemonResponse) :
    RPCClient × GBTResult :=
  match doPost h resp with
  | (h2, .panic) => (h2, .panic)
  | (h2, .err m) => (h2, .err m)
  | (h2, .ok none) => (h2, .ok none)
  | (h2, .ok (some (.decodable r))) => (h2, .ok (some r))
  | (h2, .ok (some (.junk m))) => (h2, .err m)

/-! ### RPC transport theorems -/

/-- C2 counterexample: a daemon error envelope whose error object carries no
string `message` field makes `doPost` hit the bare type assertion
`rpcResp.Error["message"].(string)` on the nil interface value and panic —
the outcome is not returned to the caller as a value, refuting the claim. -/
theorem C2_counterexample :
    doPost initialClient
        (.envelope { result := none, errObj := some [("code", GoVal.num 1)] })
      = (markSick initialClient, .panic) := by
  decide

/-- C2 (amended): no outcome terminates the process provided the response
body decodes to a non-null envelope whose error object, when present,
carries a string `message` value: transport failures and undecodable bodies
are returned as errors, an error-free envelope returns its result, and a
daemon error envelope whose error object maps `message` to the string `x`
is surfaced as an error whose text equals `x`.  (A `null` body or an error
object without a string `message` still panics, as the counterexample
shows.) -/
theorem C2_outcomes_are_values : ∀ h : RPCClient,
    (∀ msg, doPost h (.noResponse msg) = (markSick h, .err msg))
    ∧ (∀ msg, doPost h (.undecodable msg) = (markSick h, .err msg))
    ∧ (∀ res, doPost h (.envelope { result := res, errObj := none }) = (h, .ok res))
    ∧ (∀ res eo x, lookupGo "message" eo = .str x →
        doPost h (.envelope { result := res, errObj := some eo })
          = (markSick h, .err x)) := by
  intro h
  refine ⟨fun msg => rfl, fun msg => rfl, fun res => rfl, fun res eo x hx => ?_⟩
  simp [doPost, hx, assertString]

/-- C2 witness: the amended statement at a concrete error envelope whose
error object maps `message` to the string `X`. -/
theorem C2_outcomes_are_values_witness :
    doPost initialClient
        (.envelope { result := none, errObj := some [("message", GoVal.str "X")] })
      = (markSick initialClient, .err "X") :=
  (C2_outcomes_are_values initialClient).2.2.2 none
    [("message", GoVal.str "X")] "X" (by decide)

/-- C9: when `doPost` succeeds (envelope without error object) but the
result payload fails to unmarshal into the expected reply shape, the
unmarshal error is returned to the caller and the health state is returned
unchanged — every sick/streak field has the value it had before the call. -/
theorem C9_decode_error_leaves_health : ∀ (h : RPCClient) (msg : String),
    GetBlockTemplate h (.envelope { result := some (.junk msg), errObj := none })
      = (h, .err msg) := by
  intro h msg
  rfl

/-! ### Template refresh: `BlockTemplate` and `fetchBlockTemplate`
(blocks.go)

Byte buffers are `List Nat` (each entry a byte value).  Go's
`hex.DecodeString` decodes hex digit pairs left to right and, on an invalid
character or an odd-length input, returns the bytes decoded so far together
with an error; `fetchBlockTemplate` discards that error with `_`. -/

/-- Go `encoding/hex` digit value: `0`-`9`, `a`-`f`, `A`-`F`. -/
def hexDigitVal (c : Char) : Option Nat :=
  if '0' ≤ c ∧ c ≤ '9' then some (c.toNat - 48)
  else if 'a' ≤ c ∧ c ≤ 'f' then some (c.toNat - 87)
  else if 'A' ≤ c ∧ c ≤ 'F' then some (c.toNat - 55)
  else none

/-- Go `hex.DecodeString`: the decoded bytes plus an ok flag (`false` when
Go returns a non-nil error).  Pairs are decoded left to right; the first
invalid character, or a trailing odd character, stops decoding, and the
bytes of the preceding complete pairs are still returned. -/
def hexDecodeGo : List Char → List Nat × Bool
  | [] => ([], true)
  | [_] => ([], false)
  | c1 :: c2 :: rest =>
    match hexDigitVal c1, hexDigitVal c2 with
    | some hi, some lo =>
      let r := hexDecodeGo rest
      ((hi * 16 + lo) :: r.1, r.2)
    | _, _ => ([], false)

/-- blocks.go `BlockTemplate` (Go int64 as `Int`; `difficulty` is
`big.NewInt(reply.Difficulty)`, so it carries the same integer as
`diffInt64`; `reservedOffset` is a byte offset, modelled as `Nat`). -/
structure BlockTemplate where
  diffInt64 : Int
  height : Int
  difficulty : Int
  reservedOffset : Nat
  prevHash : String
  buffer : List Nat
  seedHash : String
  nextSeedHash : String
deriving DecidableEq, Repr

/-- The snapshot `fetchBlockTemplate` constructs from a reply: every field
copied from the reply, and the buffer set to whatever prefix of the blob
`hex.DecodeString` managed to decode (its error is discarded with `_`). -/
def templateOfReply (reply : GetBlockTemplateReply) : BlockTemplate :=
  { diffInt64 := reply.difficulty
    difficulty := reply.difficulty
    height := reply.height
    prevHash := reply.prevHash
    reservedOffset := reply.reservedOffset
    seedHash := reply.seedHash
    nextSeedHash := reply.nextSeedHash
    buffer := (hexDecodeGo reply.blob.data).1 }

/-- Outcome of `fetchBlockTemplate`: either a runtime panic (nil reply
dereference) or the returned boolean together with the Template Store
content after the call. -/
inductive FetchResult where
  | panic
  | res (published : Bool) (store : Option BlockTemplate)
deriving DecidableEq, Repr

/-- blocks.go `fetchBlockTemplate`, as a function of the stored template
and the `GetBlockTemplate` outcome.  On error: log and return false, store
untouched.  A nil reply with nil error is dereferenced unconditionally
(`reply.PrevHash` when a template is stored, `reply.Height` in the log call
otherwise): panic.  Otherwise the Go novelty test
`t != nil && t.prevHash == reply.PrevHash` with its
`len(reply.PrevHash) == 0 && reply.Height > t.height` fallback decides
between an early `return false` and falling through to constructing
`newTemplate` and `s.blockTemplate.Store(&newTemplate)`. -/
def fetchBlockTemplate (stored : Option BlockTemplate) (outcome : GBTResult) :
    FetchResult :=
  match outcome with
  | .panic => .panic
  | .err _ => .res false stored
  | .ok none => .panic
  | .ok (some reply) =>
    match stored with
    | some t =>
      if t.prevHash = reply.prevHash then
        if reply.prevHash.length = 0 ∧ t.height < reply.height then
          .res true (some (templateOfReply reply))
        else
          .res false (some t)
      else
        .res true (some (templateOfReply reply))
    | none => .res true (some (templateOfReply reply))

/-! ### Template refresh theorems -/

/-- A reply whose blob is not valid hex and whose reserved offset does not
fit in the decoded buffer; used to refute C1. -/
def badReply : GetBlockTemplateReply :=
  { difficulty := 1, height := 1, blob := "zz", reservedOffset := 10,
    prevHash := "p", seedHash := "", nextSeedHash := "" }

/-- C1 counterexample: with no stored template, a reply whose blob `"zz"`
is not valid hex is still published — `hex.DecodeString`'s error is
discarded — and the published snapshot has an empty buffer with
`reservedOffset = 10`, violating `reservedOffset + 7 ≤ len(buffer)`;
nothing enforces the invariant and a construction failure does publish. -/
theorem C1_counterexample :
    fetchBlockTemplate none (.ok (some badReply))
      = .res true (some (templateOfReply badReply))
    ∧ (templateOfReply badReply).buffer = []
    ∧ ¬ ((templateOfReply badReply).reservedOffset + 7
          ≤ (templateOfReply badReply).buffer.length) := by
  decide

/-- C1 (amended): publication is all-or-nothing in the swap sense — a fetch
error publishes nothing and leaves the store unchanged, and a successful
reply either leaves the store unchanged (returning false) or swaps in the
complete snapshot built from that reply in one store — but no internal
consistency is enforced: the snapshot of a non-hex blob is published with
the partially decoded buffer, and `reservedOffset + 7 ≤ len(buffer)` may
fail on a published template. -/
theorem C1_publication_outcomes :
    ∀ (stored : Option BlockTemplate) (msg : String)
      (reply : GetBlockTemplateReply),
    fetchBlockTemplate stored (.err msg) = .res false stored
    ∧ (fetchBlockTemplate stored (.ok (some reply)) = .res false stored
       ∨ fetchBlockTemplate stored (.ok (some reply))
           = .res true (some (templateOfReply reply))) := by
  intro stored msg reply
  refine ⟨rfl, ?_⟩
  match stored with
  | none => exact Or.inr rfl
  | some t =>
    simp only [fetchBlockTemplate]
    split
    · split
      · exact Or.inr rfl
      · exact Or.inl rfl
    · exact Or.inr rfl

/-- C5: the novelty policy of `fetchBlockTemplate` — no stored template:
any successful reply is published (no fault); stored prev-hash equal to the
reply's: publish exactly when the prev-hash is empty and the reply's height
is strictly greater, otherwise return false leaving the store unchanged;
differing prev-hashes: publish. -/
theorem C5_novelty_policy :
    ∀ (reply : GetBlockTemplateReply) (t : BlockTemplate),
    fetchBlockTemplate none (.ok (some reply))
      = .res true (some (templateOfReply reply))
    ∧ fetchBlockTemplate (some t) (.ok (some reply))
      = (if t.prevHash = reply.prevHash then
          (if reply.prevHash.length = 0 ∧ t.height < reply.height then
            .res true (some (templateOfReply reply))
          else
            .res false (some t))
        else
          .res true (some (templateOfReply reply))) := by
  intro reply t
  exact ⟨rfl, rfl⟩

/-- C10: a decoded envelope with neither a result field nor an error object
makes `GetBlockTemplate` return a nil reply together with a nil error, and
`fetchBlockTemplate` then dereferences the nil reply unconditionally and
panics — the caller never sees a non-nil error for this outcome. -/
theorem C10_nil_reply_nil_error :
    ∀ (h : RPCClient) (stored : Option BlockTemplate),
    GetBlockTemplate h (.envelope { result := none, errObj := none })
      = (h, .ok none)
    ∧ fetchBlockTemplate stored (.ok none) = .panic := by
  intro h stored
  exact ⟨rfl, rfl⟩

/-! ### Blob mutator: `nextBlob` (blocks.go)

`copy(dst, src)` in Go copies `min(len(dst), len(src))` bytes.  `writeInto
buf pos src` writes the bytes of `src` at successive positions from `pos`;
`List.set` past the end of the list is a no-op, which matches `copy`
stopping at the end of the destination slice (the code is only ever run on
templates satisfying `reservedOffset + 7 ≤ len(buffer)`, where the Go slice
expressions are in bounds).  The destination slice `blobBuff[ro+4:ro+7]`
has length 3, capping the instance-id copy at 3 bytes. -/

/-- Write the bytes of `src` into `buf` starting at position `pos` (Go
`copy` into a sub-slice starting at `pos`). -/
def writeInto : List Nat → Nat → List Nat → List Nat
  | buf, _, [] => buf
  | buf, pos, v :: rest => writeInto (buf.set pos v) (pos + 1) rest

/-- `binary.Write(extraBuff, binary.BigEndian, extraNonce)` for a `uint32`:
the 4 bytes of `extraNonce`, most significant first. -/
def beBytes32 (n : Nat) : List Nat :=
  [n / 16777216 % 256, n / 65536 % 256, n / 256 % 256, n % 256]

/-- The scratch buffer `nextBlob` builds and hands to `cnutil.ConvertBlob`:
a copy of the template buffer with the instance id written at
`reservedOffset + 4` (3 bytes) and the big-endian extra nonce written at
`reservedOffset` (4 bytes), in that order. -/
def nextBlobBuff (b : BlockTemplate) (extraNonce : Nat)
    (instanceId : List Nat) : List Nat :=
  let blobBuff := b.buffer
  let blobBuff := writeInto blobBuff (b.reservedOffset + 4) (instanceId.take 3)
  writeInto blobBuff b.reservedOffset (beBytes32 extraNonce)

/-- Go `hex.EncodeToString` digit. -/
def hexDigitChar (n : Nat) : Char :=
  if n < 10 then Char.ofNat (48 + n) else Char.ofNat (87 + n % 16)

/-- Go `hex.EncodeToString`. -/
def hexEncodeGo (bs : List Nat) : String :=
  String.mk (bs.foldr
    (fun b acc => hexDigitChar (b % 256 / 16) :: hexDigitChar (b % 16) :: acc) [])

/-- blocks.go `nextBlob`: build the scratch buffer, apply the external
wire-format reserialization transform `cnutil.ConvertBlob` (a parameter
here: it is out of scope, a supplied pure function), hex-encode. -/
def nextBlob (convertBlob : List Nat → List Nat) (b : BlockTemplate)
    (extraNonce : Nat) (instanceId : List Nat) : String :=
  hexEncodeGo (convertBlob (nextBlobBuff b extraNonce instanceId))

/-! ### Blob mutator lemmas -/

theorem writeInto_length : ∀ (src buf : List Nat) (pos : Nat),
    (writeInto buf pos src).length = buf.length := by
  intro src
  induction src with
  | nil => intro buf pos; rfl
  | cons v rest ih => intro buf pos; rw [writeInto, ih, List.length_set]

theorem writeInto_getElem?_of_lt : ∀ (src buf : List Nat) (pos i : Nat),
    i < pos → (writeInto buf pos src)[i]? = buf[i]? := by
  intro src
  induction src with
  | nil => intro buf pos i _; rfl
  | cons v rest ih =>
    intro buf pos i hi
    rw [writeInto, ih (buf.set pos v) (pos + 1) i (by omega),
      List.getElem?_set, if_neg (by omega)]

theorem writeInto_getElem?_of_ge : ∀ (src buf : List Nat) (pos i : Nat),
    pos + src.length ≤ i → (writeInto buf pos src)[i]? = buf[i]? := by
  intro src
  induction src with
  | nil => intro buf pos i _; rfl
  | cons v rest ih =>
    intro buf pos i hi
    rw [writeInto, ih (buf.set pos v) (pos + 1) i (by simp at hi ⊢; omega),
      List.getElem?_set, if_neg (by simp at hi; omega)]

theorem writeInto_getElem?_in : ∀ (src buf : List Nat) (pos i : Nat),
    pos ≤ i → i - pos < src.length → i < buf.length →
    (writeInto buf pos src)[i]? = src[i - pos]? := by
  intro src
  induction src with
  | nil => intro buf pos i _ h2 _; simp at h2
  | cons v rest ih =>
    intro buf pos i h1 h2 h3
    rw [writeInto]
    rcases Nat.eq_or_lt_of_le h1 with heq | hgt
    · subst heq
      rw [writeInto_getElem?_of_lt rest (buf.set pos v) (pos + 1) pos (by omega),
        List.getElem?_set, if_pos rfl, if_pos h3, Nat.sub_self,
        List.getElem?_cons_zero]
    · rw [ih (buf.set pos v) (pos + 1) i (by omega)
          (by simp at h2; omega) (by rw [List.length_set]; exact h3)]
      have hidx : i - pos = (i - (pos + 1)) + 1 := by omega
      rw [hidx, List.getElem?_cons_succ]

theorem beBytes32_inj (a b : Nat) (ha : a < 4294967296) (hb : b < 4294967296)
    (h : beBytes32 a = beBytes32 b) : a = b := by
  simp only [beBytes32, List.cons.injEq, and_true] at h
  omega

/-- C6: for a template satisfying `reservedOffset + 7 ≤ len(buffer)`, a
32-bit extra nonce and a 3-byte instance id, the scratch buffer handed to
the wire-format transform has the buffer's length, agrees with the template
buffer outside `[reservedOffset, reservedOffset + 7)`, carries the 4
big-endian extra-nonce bytes at `reservedOffset` and the instance id at
`reservedOffset + 4`, and distinct extra nonces make some byte of the
mutated region differ. -/
theorem C6_nextBlob_mutated_region (b : BlockTemplate) (en : Nat)
    (iid : List Nat) (hro : b.reservedOffset + 7 ≤ b.buffer.length)
    (hen : en < 4294967296) (hiid : iid.length = 3) :
    (nextBlobBuff b en iid).length = b.buffer.length
    ∧ (∀ i, i < b.reservedOffset ∨ b.reservedOffset + 7 ≤ i →
        (nextBlobBuff b en iid)[i]? = b.buffer[i]?)
    ∧ (∀ j, j < 4 →
        (nextBlobBuff b en iid)[b.reservedOffset + j]? = (beBytes32 en)[j]?)
    ∧ (∀ j, j < 3 →
        (nextBlobBuff b en iid)[b.reservedOffset + 4 + j]? = iid[j]?)
    ∧ (∀ en2, en2 < 4294967296 → en ≠ en2 →
        ∃ j, j < 4 ∧ (nextBlobBuff b en iid)[b.reservedOffset + j]?
          ≠ (nextBlobBuff b en2 iid)[b.reservedOffset + j]?) := by
  have htake : (iid.take 3).length = 3 := by
    rw [List.length_take, hiid]
    rfl
  have hbe : ∀ m : Nat, (beBytes32 m).length = 4 := fun m => rfl
  have hinner : ∀ m : Nat,
      (writeInto (writeInto b.buffer (b.reservedOffset + 4) (iid.take 3))
        b.reservedOffset (beBytes32 m)).length = b.buffer.length := by
    intro m
    rw [writeInto_length, writeInto_length]
  have hmid : ∀ (m j : Nat), j < 4 →
      (nextBlobBuff b m iid)[b.reservedOffset + j]? = (beBytes32 m)[j]? := by
    intro m j hj
    show (writeInto _ b.reservedOffset (beBytes32 m))[b.reservedOffset + j]? = _
    rw [writeInto_getElem?_in (beBytes32 m) _ b.reservedOffset
        (b.reservedOffset + j) (by omega) (by rw [hbe]; omega)
        (by rw [writeInto_length]; omega),
      Nat.add_sub_cancel_left]
  refine ⟨hinner en, ?_, hmid en, ?_, ?_⟩
  · intro i hi
    show (writeInto _ b.reservedOffset (beBytes32 en))[i]? = _
    rcases hi with hlt | hge
    · rw [writeInto_getElem?_of_lt (beBytes32 en) _ b.reservedOffset i hlt,
        writeInto_getElem?_of_lt (iid.take 3) b.buffer (b.reservedOffset + 4) i
          (by omega)]
    · rw [writeInto_getElem?_of_ge (beBytes32 en) _ b.reservedOffset i
          (by rw [hbe]; omega),
        writeInto_getElem?_of_ge (iid.take 3) b.buffer (b.reservedOffset + 4) i
          (by rw [htake]; omega)]
  · intro j hj
    show (writeInto _ b.reservedOffset (beBytes32 en))[b.reservedOffset + 4 + j]? = _
    rw [writeInto_getElem?_of_ge (beBytes32 en) _ b.reservedOffset
        (b.reservedOffset + 4 + j) (by rw [hbe]; omega),
      writeInto_getElem?_in (iid.take 3) b.buffer (b.reservedOffset + 4)
        (b.reservedOffset + 4 + j) (by omega) (by rw [htake]; omega) (by omega),
      Nat.add_sub_cancel_left, List.getElem?_take, if_pos hj]
  · intro en2 hen2 hne
    by_contra hall
    push_neg at hall
    apply hne
    apply beBytes32_inj en en2 hen hen2
    apply List.ext_getElem?
    intro j
    by_cases hj : j < 4
    · rw [← hmid en j hj, ← hmid en2 j hj]
      exact hall j hj
    · rw [List.getElem?_eq_none (by rw [hbe]; omega),
        List.getElem?_eq_none (by rw [hbe]; omega)]

/-- C6 witness: the mutated-region description at a concrete template with
`reservedOffset = 1` and an 8-byte buffer, extra nonce 5, instance id
`[9, 9, 9]`. -/
theorem C6_nextBlob_mutated_region_witness :
    (nextBlobBuff
      { diffInt64 := 0, height := 0, difficulty := 0, reservedOffset := 1,
        prevHash := "", buffer := [10, 11, 12, 13, 14, 15, 16, 17],
        seedHash := "", nextSeedHash := "" } 5 [9, 9, 9]).length
      = ([10, 11, 12, 13, 14, 15, 16, 17] : List Nat).length :=
  (C6_nextBlob_mutated_region
    { diffInt64 := 0, height := 0, difficulty := 0, reservedOffset := 1,
      prevHash := "", buffer := [10, 11, 12, 13, 14, 15, 16, 17],
      seedHash := "", nextSeedHash := "" } 5 [9, 9, 9]
    (by decide) (by decide) (by decide)).1

/-! ### No-aliasing model for `nextBlob` (C7)

The pure value model above cannot even express mutation of the shared
template, so the aliasing discipline of `nextBlob` is embedded against a
small heap: a `Mem` is the list of live byte buffers and a buffer reference
is an index into it.  `make([]byte, n)` allocates a fresh zeroed buffer at
a fresh reference; each Go `copy` reads and rewrites the buffer a reference
points to.  `nextBlobMem` is `nextBlob`'s buffer manipulation replayed on
this heap: allocate `blobBuff`, copy the template buffer into it, then the
two in-place copies — all three writes target `blobBuff`'s reference, which
is what the theorem checks. -/

/-- A heap of byte buffers; a buffer reference is an index into `bufs`. -/
structure Mem where
  bufs : List (List Nat)
deriving DecidableEq, Repr

/-- `make([]byte, n)`: extend the heap with a fresh zeroed buffer and
return its reference. -/
def Mem.alloc (m : Mem) (n : Nat) : Mem × Nat :=
  ({ bufs := m.bufs ++ [List.replicate n 0] }, m.bufs.length)

/-- Read the buffer a reference points to. -/
def Mem.readBuf (m : Mem) (ref : Nat) : List Nat :=
  m.bufs.getD ref []

/-- Replace the buffer a reference points to. -/
def Mem.writeBuf (m : Mem) (ref : Nat) (buf : List Nat) : Mem :=
  { bufs := m.bufs.set ref buf }

/-- blocks.go `nextBlob`'s buffer manipulation on the heap, for a template
whose `buffer` lives at `bufRef` and whose reserved offset is `ro`:
`blobBuff := make([]byte, len(b.buffer))`, `copy(blobBuff, b.buffer)`,
`copy(blobBuff[ro+4:ro+7], instanceId)`,
`copy(blobBuff[ro:], extraBuff.Bytes())`.  Returns the final heap and the
reference of the scratch buffer handed to `cnutil.ConvertBlob`. -/
def nextBlobMem (m : Mem) (bufRef ro extraNonce : Nat)
    (instanceId : List Nat) : Mem × Nat :=
  let src := m.readBuf bufRef
  let a := m.alloc src.length
  let m1 := a.1
  let blobRef := a.2
  let m2 := m1.writeBuf blobRef (writeInto (m1.readBuf blobRef) 0 src)
  let m3 := m2.writeBuf blobRef
    (writeInto (m2.readBuf blobRef) (ro + 4) (instanceId.take 3))
  let m4 := m3.writeBuf blobRef
    (writeInto (m3.readBuf blobRef) ro (beBytes32 extraNonce))
  (m4, blobRef)

/-- C7: `nextBlob` never mutates the shared template: for every heap in
which the template's buffer reference is live, every reserved offset, extra
nonce and instance id, the buffer at the template's reference holds exactly
the same bytes after the call as before, and the scratch buffer handed to
the wire transform is a different reference (a fresh deep copy).  The
remaining `BlockTemplate` fields are plain values in this embedding, which
`nextBlob` (a function of the template) cannot alter. -/
theorem C7_nextBlob_no_mutation (m : Mem) (bufRef ro en : Nat)
    (iid : List Nat) (h : bufRef < m.bufs.length) :
    (nextBlobMem m bufRef ro en iid).1.readBuf bufRef = m.readBuf bufRef
    ∧ (nextBlobMem m bufRef ro en iid).2 ≠ bufRef := by
  have hne : m.bufs.length ≠ bufRef := by omega
  constructor
  · show Mem.readBuf
      (Mem.writeBuf (Mem.writeBuf (Mem.writeBuf _ m.bufs.length _)
        m.bufs.length _) m.bufs.length _) bufRef = m.readBuf bufRef
    simp only [Mem.readBuf, Mem.writeBuf, Mem.alloc]
    rw [List.getD_eq_getElem?_getD, List.getD_eq_getElem?_getD,
      List.getElem?_set, if_neg hne, List.getElem?_set, if_neg hne,
      List.getElem?_set, if_neg hne, List.getElem?_append, if_pos h]
  · show m.bufs.length ≠ bufRef
    exact hne

/-- C7 witness: the no-mutation statement at a concrete one-buffer heap. -/
theorem C7_nextBlob_no_mutation_witness :
    (nextBlobMem { bufs := [[1, 2, 3, 4, 5, 6, 7, 8]] } 0 1 5 [9, 9, 9]).1.readBuf 0
      = Mem.readBuf { bufs := [[1, 2, 3, 4, 5, 6, 7, 8]] } 0
    ∧ (nextBlobMem { bufs := [[1, 2, 3, 4, 5, 6, 7, 8]] } 0 1 5 [9, 9, 9]).2 ≠ 0 :=
  C7_nextBlob_no_mutation { bufs := [[1, 2, 3, 4, 5, 6, 7, 8]] } 0 1 5 [9, 9, 9]
    (by decide)

end TnftStratum
